import Mathlib

/-!
Verification of the resilient request execution layer of the n8n-nodes-lirax
repository: a shallow embedding, in Lean 4, of the circuit breaker, the
retry/failover client, the throttling manager, the in-memory cache provider,
the orchestrator (`LiraXCore.executeOperation`) and the error handler,
together with theorems settling the specification claims about them.

Times are JavaScript `Date.now()` millisecond values, modelled as `Nat`.
JavaScript truthiness is modelled explicitly where the source relies on it.
-/

/-- Occurrence test on character lists: `listContainsSub s pat` is `true` iff
`pat` occurs as a contiguous run inside `s`. -/
def listContainsSub (s pat : List Char) : Bool :=
  if pat.isPrefixOf s then true
  else
    match s with
    | [] => false
    | _ :: t => listContainsSub t pat

/-- Substring test: `strContainsB s pat` is `true` iff `pat` occurs inside `s`
(model of JavaScript `String.prototype.includes`). -/
def strContainsB (s pat : String) : Bool :=
  listContainsSub s.data pat.data

/-- Single-quote character, used to build the error-message literals of the
source (which quote operation names). -/
def apos : String :=
  String.singleton (Char.ofNat 39)

/-- JSON-like values: the payloads, responses and cache entries that the
adapter passes around (`IDataObject` / parsed JSON on the wire). -/
inductive JVal where
  | jstr : String → JVal
  | jbool : Bool → JVal
  | jnum : Int → JVal
  | jobj : List (String × JVal) → JVal

/-- JavaScript truthiness of a `JVal` (objects are always truthy, a string is
truthy iff nonempty, a number iff nonzero). -/
def jsTruthy : JVal → Bool
  | JVal.jstr s => decide (s ≠ "")
  | JVal.jbool b => b
  | JVal.jnum n => decide (n ≠ 0)
  | JVal.jobj _ => true

/-- Model of `normalizePhoneDigits` (shared/LiraX.utils.ts): for a falsy
(empty) input return `""`, otherwise drop every non-digit character
(`phone.replace` of all non-digit runs by the empty string). -/
def normalizePhoneDigits (phone : String) : String :=
  if phone = "" then ""
  else String.mk (phone.data.filter Char.isDigit)

/-- Circuit breaker states (shared/LiraX.utils.ts, class CircuitBreaker). -/
inductive BreakerState where
  | CLOSED
  | OPEN
  | HALF_OPEN
deriving DecidableEq, Repr

/-- Circuit breaker instance state (shared/LiraX.utils.ts lines 634-652):
mutable fields plus the constructor-set read-only parameters. -/
structure CircuitBreaker where
  state : BreakerState
  failures : Nat
  lastFailureTime : Nat
  failureThreshold : Nat
  resetTimeout : Nat
  halfOpenMaxAttempts : Nat
  halfOpenAttempts : Nat
  successCount : Nat
deriving DecidableEq, Repr

/-- A breaker as built by `new CircuitBreaker()` with the default parameters
(failureThreshold 5, resetTimeout 60000 ms, halfOpenMaxAttempts 3). -/
def CircuitBreaker.fresh : CircuitBreaker :=
  { state := BreakerState.CLOSED
    failures := 0
    lastFailureTime := 0
    failureThreshold := 5
    resetTimeout := 60000
    halfOpenMaxAttempts := 3
    halfOpenAttempts := 0
    successCount := 0 }

/-- Model of `CircuitBreaker.onSuccess`: reset failures and half-open
attempts, bump the success counter, close the breaker after the third
half-open success, otherwise count a half-open attempt. -/
def CircuitBreaker.onSuccess (cb : CircuitBreaker) : CircuitBreaker :=
  let c1 : CircuitBreaker :=
    { cb with failures := 0, halfOpenAttempts := 0, successCount := cb.successCount + 1 }
  if c1.state = BreakerState.HALF_OPEN ∧ 3 ≤ c1.successCount then
    { c1 with state := BreakerState.CLOSED, successCount := 0 }
  else if c1.state = BreakerState.HALF_OPEN then
    { c1 with halfOpenAttempts := c1.halfOpenAttempts + 1 }
  else c1

/-- Model of `CircuitBreaker.onFailure`: count the failure, and trip to OPEN
(recording the failure time) on any half-open failure or once the
consecutive-failure count reaches the threshold. -/
def CircuitBreaker.onFailure (cb : CircuitBreaker) (now : Nat) : CircuitBreaker :=
  let c1 : CircuitBreaker :=
    { cb with failures := cb.failures + 1, halfOpenAttempts := cb.halfOpenAttempts + 1,
              successCount := 0 }
  if c1.state = BreakerState.HALF_OPEN ∨ c1.failureThreshold ≤ c1.failures then
    { c1 with state := BreakerState.OPEN, lastFailureTime := now }
  else c1

/-- Result of one `CircuitBreaker.execute` call. `rejectedOpen` and
`rejectedBudget` are the two throws that happen before the operation is
invoked; `succeeded` and `failed` report the invoked operation's outcome. -/
inductive ExecResult where
  | rejectedOpen
  | rejectedBudget
  | succeeded
  | failed
deriving DecidableEq, Repr

/-- Full outcome of one `CircuitBreaker.execute` call: what happened, whether
the supplied operation was invoked, the breaker state in force at the try
block (or at the rejection), and the breaker state afterwards. -/
structure ExecOutcome where
  result : ExecResult
  invoked : Bool
  stateDuringCall : BreakerState
  after : CircuitBreaker
deriving Repr

/-- Model of `CircuitBreaker.execute` (shared/LiraX.utils.ts lines 654-679).
`now` is `Date.now()`; `opSucceeds` tells whether the supplied operation,
if invoked, resolves or rejects. An OPEN breaker rejects unless more than
`resetTimeout` ms have passed since the last failure, in which case it moves
to HALF_OPEN (resetting both half-open counters) and lets the call through;
a HALF_OPEN breaker whose probe budget is spent re-opens and rejects. -/
def CircuitBreaker.execute (cb : CircuitBreaker) (now : Nat) (opSucceeds : Bool) :
    ExecOutcome :=
  if cb.state = BreakerState.OPEN ∧ ¬ (cb.resetTimeout < now - cb.lastFailureTime) then
    { result := ExecResult.rejectedOpen, invoked := false,
      stateDuringCall := BreakerState.OPEN, after := cb }
  else
    let cb1 : CircuitBreaker :=
      if cb.state = BreakerState.OPEN then
        { cb with state := BreakerState.HALF_OPEN, halfOpenAttempts := 0, successCount := 0 }
      else cb
    if cb1.state = BreakerState.HALF_OPEN ∧ cb1.halfOpenMaxAttempts ≤ cb1.halfOpenAttempts then
      { result := ExecResult.rejectedBudget, invoked := false,
        stateDuringCall := BreakerState.HALF_OPEN,
        after := { cb1 with state := BreakerState.OPEN, lastFailureTime := now } }
    else if opSucceeds then
      { result := ExecResult.succeeded, invoked := true,
        stateDuringCall := cb1.state, after := cb1.onSuccess }
    else
      { result := ExecResult.failed, invoked := true,
        stateDuringCall := cb1.state, after := cb1.onFailure now }

/-- The breaker state left behind by one `execute` call. -/
def execAfter (cb : CircuitBreaker) (now : Nat) (opSucceeds : Bool) : CircuitBreaker :=
  (cb.execute now opSucceeds).after

/-- Repeatedly run `execute` with a failing operation at the given times. -/
def failTimes (cb : CircuitBreaker) (ts : List Nat) : CircuitBreaker :=
  ts.foldl (fun c t => execAfter c t false) cb

/-- The breaker state after five consecutive failed calls (at the given
times) on a fresh default breaker. -/
def cbAfter5Failures (t1 t2 t3 t4 t5 : Nat) : CircuitBreaker :=
  failTimes CircuitBreaker.fresh [t1, t2, t3, t4, t5]

/-- Credential record as the request path reads it. The fields are those of
the `LiraXCredentials` interface (types/LiraX.types.ts lines 182-194); `id`
models the untyped runtime property read by `executeLiraxRequest`
(`credentials.id`): the interface declares no `id` field, so a record built
from the declared credential fields carries `none` here. -/
structure LiraXCredentials where
  baseUrl : String
  secondaryBaseUrl : Option String
  token : String
  incomingToken : String
  sslVerify : Bool
  timeoutMs : Nat
  retries : Int
  backoffBaseMs : Nat
  id : Option String
deriving DecidableEq, Repr

/-- The breaker-map key computed by `executeLiraxRequest`
(`credentials.id || 'default'`, shared/LiraX.utils.ts line 409): the runtime
`id` when truthy, else the shared fallback key. -/
def breakerKeyOf (runtimeId : Option String) : String :=
  match runtimeId with
  | some s => if s = "" then "default" else s
  | none => "default"

/-- Model of `CircuitBreakerFactory.getBreaker`: look the key up in the
static breaker map, creating a fresh default breaker on first use. Returns
the breaker for the key together with the updated map. -/
def getBreakerEntry (m : String → Option CircuitBreaker) (key : String) :
    CircuitBreaker × (String → Option CircuitBreaker) :=
  match m key with
  | some b => (b, m)
  | none => (CircuitBreaker.fresh, fun k => if k = key then some CircuitBreaker.fresh else m k)

/-- One guarded request under a credential record: fetch the per-key breaker
from the factory map, run `execute` on it, and store the breaker state back
(the factory map holds the same mutable instance). -/
def breakerCallUnder (m : String → Option CircuitBreaker) (credId : Option String)
    (now : Nat) (opSucceeds : Bool) : ExecOutcome × (String → Option CircuitBreaker) :=
  let key := breakerKeyOf credId
  let be := getBreakerEntry m key
  let o := be.1.execute now opSucceeds
  (o, fun k => if k = key then some o.after else be.2 k)

/-- The factory's breaker map before any request. -/
def emptyBreakers : String → Option CircuitBreaker := fun _ => none

/-- Record a sequence of failed guarded requests under one credential. -/
def breakerFailuresUnder (m : String → Option CircuitBreaker) (credId : Option String)
    (ts : List Nat) : String → Option CircuitBreaker :=
  ts.foldl (fun acc t => (breakerCallUnder acc credId t false).2) m

/-- Concrete credential record A (no runtime `id`, as the interface admits). -/
def credA : LiraXCredentials :=
  { baseUrl := "https://a.lirax.example", secondaryBaseUrl := none, token := "tokenA",
    incomingToken := "inA", sslVerify := true, timeoutMs := 30000, retries := 3,
    backoffBaseMs := 1000, id := none }

/-- Concrete credential record B, different from A (different token). -/
def credB : LiraXCredentials :=
  { baseUrl := "https://b.lirax.example", secondaryBaseUrl := none, token := "tokenB",
    incomingToken := "inB", sslVerify := true, timeoutMs := 30000, retries := 3,
    backoffBaseMs := 1000, id := none }

/-- Raw transport/vendor error as `isRetryableError` and the error handler
inspect it: optional network error code, optional HTTP status, message. -/
structure JsError where
  code : Option String
  httpCode : Option Nat
  message : String
deriving DecidableEq, Repr

/-- Model of `isRetryableError` (shared/LiraX.utils.ts lines 342-370):
retryable are the three network error codes, HTTP 5xx (when the status is
truthy), HTTP 429, and three vendor transient-failure message substrings. -/
def isRetryableError (e : Option JsError) : Bool :=
  match e with
  | none => false
  | some err =>
    if err.code = some "ETIMEDOUT" ∨ err.code = some "ECONNRESET" ∨
        err.code = some "ECONNREFUSED" then true
    else if (match err.httpCode with
             | some h => decide (h ≠ 0) && decide (500 ≤ h) && decide (h < 600)
             | none => false) = true then true
    else if err.httpCode = some 429 then true
    else if strContainsB err.message "modem busy" ∨ strContainsB err.message "timeout" ∨
        strContainsB err.message "temporarily unavailable" then true
    else false

/-- What one HTTP attempt yields: a transport error, or an HTTP response. -/
inductive AttemptOutcome where
  | httpErr : JsError → AttemptOutcome
  | resp : JVal → AttemptOutcome

/-- Field lookup in a JSON object value. -/
def lookupField (v : JVal) (k : String) : Option JVal :=
  match v with
  | JVal.jobj fs => fs.lookup k
  | _ => none

/-- JavaScript template-literal rendering of a `JVal`. -/
def jvalTemplateStr : JVal → String
  | JVal.jstr s => s
  | JVal.jbool b => if b then "true" else "false"
  | JVal.jnum n => toString n
  | JVal.jobj _ => "[object Object]"

/-- One attempt of the retry loop body (shared/LiraX.utils.ts lines 487-493):
a transport error is thrown as-is; a response carrying a top-level `error`
field is turned into a thrown `LiraX API error: ...`; otherwise the
response is returned. -/
def attemptResult (oracle : Nat → Nat → AttemptOutcome) (ep att : Nat) :
    Except JsError JVal :=
  match oracle ep att with
  | AttemptOutcome.httpErr e => Except.error e
  | AttemptOutcome.resp v =>
    match lookupField v "error" with
    | some e => Except.error
        { code := none, httpCode := none,
          message := "LiraX API error: " ++ jvalTemplateStr e }
    | none => Except.ok v

/-- Outcome of the per-endpoint `while (attempt < maxAttempts)` loop:
the successful response if any, the errors pushed to `allErrors`, the
`(endpoint, attempt)` pairs tried, and how many backoff sleeps ran. -/
structure EndpointRun where
  success : Option JVal
  errors : List JsError
  attempts : List (Nat × Nat)
  sleeps : Nat

/-- Model of the per-endpoint retry loop (shared/LiraX.utils.ts lines
452-514). `remaining` is `maxAttempts - attempt`, positive on entry; the
loop stops early on success, on a non-retryable error, or on the last
attempt, and otherwise sleeps the backoff delay (always positive) and
retries. -/
def runEndpoint (oracle : Nat → Nat → AttemptOutcome) (ep : Nat) :
    Nat → Nat → EndpointRun
  | _, 0 => { success := none, errors := [], attempts := [], sleeps := 0 }
  | att, r + 1 =>
    match attemptResult oracle ep att with
    | Except.ok v =>
      { success := some v, errors := [], attempts := [(ep, att)], sleeps := 0 }
    | Except.error e =>
      if ¬ isRetryableError (some e) then
        { success := none, errors := [e], attempts := [(ep, att)], sleeps := 0 }
      else if r = 0 then
        { success := none, errors := [e], attempts := [(ep, att)], sleeps := 0 }
      else
        let rest := runEndpoint oracle ep (att + 1) r
        { success := rest.success, errors := e :: rest.errors,
          attempts := (ep, att) :: rest.attempts, sleeps := rest.sleeps + 1 }

/-- Final result of `executeRequestWithRetry`: a response, the thrown
aggregated failover error (with `allErrors`), or the configuration error
thrown when no valid base URL is configured. -/
inductive ReqResult where
  | ok : JVal → ReqResult
  | failoverError : List JsError → ReqResult
  | configError : ReqResult

/-- A full failover run: its result plus the attempt/sleep trace. -/
structure FailRun where
  result : ReqResult
  attempts : List (Nat × Nat)
  sleeps : Nat

/-- Model of the `for (const baseUrl of validUrls)` loop: run the retry loop
on each endpoint in order, stopping at the first success, and otherwise
aggregating every endpoint's errors in order. -/
def runEndpoints (oracle : Nat → Nat → AttemptOutcome) (maxAttempts : Nat) :
    Nat → List String → FailRun
  | _, [] => { result := ReqResult.failoverError [], attempts := [], sleeps := 0 }
  | epIdx, _ :: rest =>
    let r := runEndpoint oracle epIdx 0 maxAttempts
    match r.success with
    | some v => { result := ReqResult.ok v, attempts := r.attempts, sleeps := r.sleeps }
    | none =>
      let tail := runEndpoints oracle maxAttempts (epIdx + 1) rest
      match tail.result with
      | ReqResult.ok v =>
        { result := ReqResult.ok v, attempts := r.attempts ++ tail.attempts,
          sleeps := r.sleeps + tail.sleeps }
      | ReqResult.failoverError errs =>
        { result := ReqResult.failoverError (r.errors ++ errs),
          attempts := r.attempts ++ tail.attempts, sleeps := r.sleeps + tail.sleeps }
      | ReqResult.configError => tail

/-- Prefix test (model of JavaScript `String.prototype.startsWith`). -/
def strStartsWith (s pre : String) : Bool :=
  pre.data.isPrefixOf s.data

/-- Endpoint validity filter (shared/LiraX.utils.ts lines 433-435): truthy,
longer than 5 characters, and an http(s) scheme. -/
def isValidBaseUrl (u : String) : Bool :=
  decide (5 < u.length) && (strStartsWith u "http://" || strStartsWith u "https://")

/-- The candidate URL list (lines 428-431): the base URL, plus the secondary
base URL when truthy. -/
def credentialUrls (c : LiraXCredentials) : List String :=
  match c.secondaryBaseUrl with
  | some s => if s ≠ "" then [c.baseUrl, s] else [c.baseUrl]
  | none => [c.baseUrl]

/-- Attempt budget per endpoint (line 453):
`Math.max(0, credentials.retries || DEFAULT_RETRY_ATTEMPTS) + 1`, where `||`
replaces a falsy (zero) retry count by the default 3. -/
def maxAttemptsOf (retries : Int) : Nat :=
  (max 0 (if retries = 0 then 3 else retries)).toNat + 1

/-- Model of `executeRequestWithRetry` (shared/LiraX.utils.ts lines
427-523): filter the configured URLs, fail fast with a configuration error
when none is valid, else run the failover loop. -/
def executeRequestWithRetry (c : LiraXCredentials)
    (oracle : Nat → Nat → AttemptOutcome) : FailRun :=
  let validUrls := (credentialUrls c).filter isValidBaseUrl
  if validUrls.isEmpty then
    { result := ReqResult.configError, attempts := [], sleeps := 0 }
  else
    runEndpoints oracle (maxAttemptsOf c.retries) 0 validUrls

/-- Message of the error built by `LiraXErrorHandler.handleFailoverError`
(core/LiraXErrorHandler.ts lines 244-247). -/
def failoverSurfacedMessage (op : String) : String :=
  "All failover attempts failed for operation " ++ apos ++ op ++ apos

/-- The always-HTTP-500 error endpoint A produces. -/
def err500 : JsError :=
  { code := none, httpCode := some 500, message := "Internal Server Error" }

/-- The HTTP 400 error of the non-retryable scenario. -/
def err400 : JsError :=
  { code := none, httpCode := some 400, message := "Bad Request" }

/-- Endpoint B's successful response (no top-level `error` field). -/
def respOkB : JVal :=
  JVal.jobj [("status", JVal.jstr "ok"), ("endpoint", JVal.jstr "B")]

/-- Transport oracle for the failover scenario: endpoint 0 (A) always fails
with HTTP 500, endpoint 1 (B) responds successfully. -/
def oracleABFail500 : Nat → Nat → AttemptOutcome :=
  fun ep _ => if ep = 0 then AttemptOutcome.httpErr err500 else AttemptOutcome.resp respOkB

/-- Transport oracle that always returns HTTP 400. -/
def oracleSingle400 : Nat → Nat → AttemptOutcome :=
  fun _ _ => AttemptOutcome.httpErr err400

/-- Credentials with endpoints [A, B] and the given configured retry count. -/
def credsAB (r : Int) : LiraXCredentials :=
  { baseUrl := "https://a.lirax.example", secondaryBaseUrl := some "https://b.lirax.example",
    token := "tokenA", incomingToken := "in", sslVerify := true, timeoutMs := 30000,
    retries := r, backoffBaseMs := 1000, id := none }

/-- Credentials with a single configured endpoint. -/
def credsSingle : LiraXCredentials :=
  { baseUrl := "https://a.lirax.example", secondaryBaseUrl := none, token := "tokenA",
    incomingToken := "in", sslVerify := true, timeoutMs := 30000, retries := 3,
    backoffBaseMs := 1000, id := none }

/-- Error object as `LiraXErrorHandler.handle` inspects it: network code,
HTTP status (own property and `response.status`), response body and
`response.data.error`, Zod issues (path, message), and the message. -/
structure HandlerError where
  code : Option String
  httpCode : Option Nat
  responseStatus : Option Nat
  responseBody : Option String
  responseDataError : Option String
  zodErrors : List (List String × String)
  message : String

/-- JavaScript `a || b` on optional numbers (zero and undefined are falsy). -/
def jsOrNat (a b : Option Nat) : Option Nat :=
  match a with
  | some n => if n = 0 then b else some n
  | none => b

/-- The `Operation '<op>' failed: ` prefix every handler message carries. -/
def opFailedPrefix (operation : String) : String :=
  "Operation " ++ apos ++ operation ++ apos ++ " failed: "

/-- Model of `LiraXErrorHandler.generateUserFriendlyMessage`
(core/LiraXErrorHandler.ts lines 57-128), arm for arm in source order. -/
def generateUserFriendlyMessage (err : HandlerError) (operation : String)
    (httpCode : Option Nat) : String :=
  if httpCode = some 401 then
    opFailedPrefix operation ++ "Invalid LiraX API Token. Check your credentials."
  else if httpCode = some 400 then
    opFailedPrefix operation ++ "Invalid parameters sent to LiraX. Check node inputs and validation."
  else if httpCode = some 403 then
    if strContainsB err.message "modem busy" then
      opFailedPrefix operation ++ "LiraX modem is busy. Please try again later."
    else
      opFailedPrefix operation ++ "Access forbidden. Check your permissions."
  else if httpCode = some 404 then
    opFailedPrefix operation ++ "Resource not found. Check if the operation exists in your LiraX version."
  else if httpCode = some 500 then
    opFailedPrefix operation ++ "LiraX server internal error."
  else if httpCode = some 502 then
    opFailedPrefix operation ++ "LiraX server is temporarily unavailable."
  else if httpCode = some 503 then
    opFailedPrefix operation ++ "LiraX service is temporarily overloaded."
  else if err.code = some "ETIMEDOUT" then
    opFailedPrefix operation ++ "Connection to LiraX timed out."
  else if err.code = some "ECONNREFUSED" then
    opFailedPrefix operation ++ "Connection to LiraX refused. Check base URL and network connectivity."
  else if err.code = some "ENOTFOUND" then
    opFailedPrefix operation ++ "LiraX server not found. Check base URL."
  else if err.code = some "ECONNRESET" then
    opFailedPrefix operation ++ "Connection to LiraX was reset."
  else if (match err.zodErrors with
           | pe :: _ => decide (pe.1 ≠ [])
           | [] => false) = true then
    opFailedPrefix operation ++ "Invalid input parameters. " ++
      String.intercalate ", "
        (err.zodErrors.map (fun pe => String.intercalate "." pe.1 ++ ": " ++ pe.2))
  else if (err.responseDataError.getD "") ≠ "" then
    opFailedPrefix operation ++ err.responseDataError.getD ""
  else if strContainsB err.message "modem busy" then
    opFailedPrefix operation ++ "LiraX modem is busy. Please try again later."
  else
    opFailedPrefix operation ++ (if err.message = "" then "Unknown error occurred" else err.message)

/-- Masking applied to one value (core/LiraXErrorHandler.ts lines 139-144):
values longer than 4 characters keep only their last 4 characters behind
stars; shorter ones become `****`. -/
def maskValue (v : String) : String :=
  if 4 < v.length then
    String.mk (List.replicate (v.length - 4) '*') ++ String.mk (v.data.drop (v.length - 4))
  else "****"

/-- The handler's sensitive-field list (core/LiraXErrorHandler.ts lines
134-135). Note that it contains neither `email` nor any IP field. -/
def sensitiveFieldsEH : List String :=
  ["token", "phone", "ani", "dnis", "to", "to1", "to2", "provider", "ext", "newext",
   "client", "from_LiraX_token"]

/-- Model of `LiraXErrorHandler.maskSensitiveData` (lines 130-149): mask each
listed field whose value is truthy (nonempty), leave everything else. -/
def maskSensitiveDataEH (p : List (String × String)) : List (String × String) :=
  p.map (fun kv => if kv.1 ∈ sensitiveFieldsEH ∧ kv.2 ≠ "" then (kv.1, maskValue kv.2) else kv)

/-- The token deletion at the top of `handle` (lines 14-17): when the payload
carries a truthy `token`, the field is removed entirely. -/
def deleteTokenField (p : List (String × String)) : List (String × String) :=
  match p.lookup "token" with
  | some v => if v ≠ "" then p.filter (fun kv => kv.1 ≠ "token") else p
  | none => p

/-- JSON.stringify(flat string object, null, 2), as embedded into the error
description. -/
def jsonRenderFlat (p : List (String × String)) : String :=
  match p with
  | [] => "\x7b\x7d"
  | _ => "\x7b\n" ++
      String.intercalate ",\n"
        (p.map (fun kv => "  \"" ++ kv.1 ++ "\": \"" ++ kv.2 ++ "\"")) ++
      "\n\x7d"

/-- Model of `formatErrorDescription` (lines 151-194): one line per truthy
detail, then the masked payload, then the response body. -/
def formatErrorDescription (operation : String) (resource : Option String)
    (httpCode : Option Nat) (errorCode : Option String) (ts : String)
    (maskedPayload : Option (List (String × String))) (respBody : Option String) : String :=
  String.intercalate "\n"
    (["LiraX API Error Details:"] ++
     (if operation ≠ "" then ["Operation: " ++ operation] else []) ++
     (match resource with
      | some r => if r ≠ "" then ["Resource: " ++ r] else []
      | none => []) ++
     (match httpCode with
      | some h => if h ≠ 0 then ["HTTP Code: " ++ toString h] else []
      | none => []) ++
     (match errorCode with
      | some c => if c ≠ "" then ["Error Code: " ++ c] else []
      | none => []) ++
     (if ts ≠ "" then ["Timestamp: " ++ ts] else []) ++
     (match maskedPayload with
      | some mp => ["", "Request Payload (sensitive data masked):", jsonRenderFlat mp]
      | none => []) ++
     (match respBody with
      | some b => ["", "Response Body:", b]
      | none => []))

/-- The masked payload embedded into the details by `handle` (lines 25-27):
present only when the sanitized payload is nonempty. -/
def handleMaskedPayload (payload : List (String × String)) :
    Option (List (String × String)) :=
  let sanitized := deleteTokenField payload
  if sanitized ≠ [] then some (maskSensitiveDataEH sanitized) else none

/-- Message of the `NodeApiError` produced by `LiraXErrorHandler.handle`. -/
def handleMessage (err : HandlerError) (operation : String) : String :=
  generateUserFriendlyMessage err operation (jsOrNat err.httpCode err.responseStatus)

/-- Description of the `NodeApiError` produced by `LiraXErrorHandler.handle`
(`ts` stands for the ISO timestamp taken at handling time). -/
def handleDescription (err : HandlerError) (operation : String)
    (resource : Option String) (payload : List (String × String)) (ts : String) : String :=
  formatErrorDescription operation resource (jsOrNat err.httpCode err.responseStatus)
    err.code ts (handleMaskedPayload payload) err.responseBody

/-- A generic transport error with no HTTP status and no embedded response. -/
def genericErr : HandlerError :=
  { code := none, httpCode := none, responseStatus := none, responseBody := none,
    responseDataError := none, zodErrors := [], message := "socket hang up" }

/-- A sample ISO timestamp for the concrete error-handling scenarios. -/
def tsSample : String := "2026-01-01T00:00:00.000Z"

/-- The concrete error payload of the C7 scenario. -/
def payloadTokenPhone : List (String × String) :=
  [("token", "abc123xyz"), ("phone", "380501234567")]

/-- One stored cache entry of `MemoryCacheProvider` (data plus absolute
expiry time in ms). -/
structure MemEntry where
  data : JVal
  expires : Nat

/-- State of one `MemoryCacheProvider` instance
(core/cache/ICacheProvider.ts, `private cache = new Map()` plus stats and
the constructor options). -/
structure MemCache where
  table : String → Option MemEntry
  hits : Nat
  misses : Nat
  defaultTTL : Nat
  keyPrefix : String

/-- JavaScript `Number.MAX_SAFE_INTEGER`, used as the never-expires expiry. -/
def jsMaxSafeInteger : Nat := 2 ^ 53 - 1

/-- Model of `MemoryCacheProvider.get`: lazy expiry on read (`Date.now() >
entry.expires` evicts and misses), stats updated on every read. Returns the
value (or `none`) with the provider state afterwards. -/
def MemCache.get (c : MemCache) (key : String) (now : Nat) : Option JVal × MemCache :=
  let pk := c.keyPrefix ++ ":" ++ key
  match c.table pk with
  | none => (none, { c with misses := c.misses + 1 })
  | some e =>
    if e.expires < now then
      let dropped : String → Option MemEntry := fun kk => if kk = pk then none else c.table kk
      (none, { c with table := dropped, misses := c.misses + 1 })
    else
      (some e.data, { c with hits := c.hits + 1 })

/-- Model of `MemoryCacheProvider.set`: positive TTL (seconds) gives an
absolute expiry `now + ttl * 1000`, otherwise the entry never expires. -/
def MemCache.set (c : MemCache) (key : String) (v : JVal) (ttlSeconds : Option Nat)
    (now : Nat) : MemCache :=
  let pk := c.keyPrefix ++ ":" ++ key
  let ttl := ttlSeconds.getD c.defaultTTL
  let expires := if 0 < ttl then now + ttl * 1000 else jsMaxSafeInteger
  { c with table := fun kk => if kk = pk then some { data := v, expires := expires }
                              else c.table kk }

/-- Model of `new MemoryCacheProvider(options)`: a fresh provider with its
own empty private map. -/
def MemoryCacheProvider.new (ttl : Nat) (keyPrefix : String) : MemCache :=
  { table := fun _ => none, hits := 0, misses := 0, defaultTTL := ttl,
    keyPrefix := keyPrefix }

/-- Model of `CacheFactory.create('memory', options)`
(core/cache/ICacheProvider.ts lines 323-336): every call constructs a new
`MemoryCacheProvider`; there is no shared static map. -/
def cacheFactoryCreateMemory (ttl : Nat) (keyPrefix : String) : MemCache :=
  MemoryCacheProvider.new ttl keyPrefix

/-- One `LiraXCore` orchestrator instance: its own cache provider (built by
the constructor via `CacheFactory.create` with the default memory provider,
ttl 3600, prefix `lirax`), plus an instrumentation counter of network calls
performed through `liraxRequest`. -/
structure LiraXCoreInstance where
  cache : MemCache
  networkCalls : Nat

/-- Model of `new LiraXCore(context, credentials)` with default settings:
provider `memory`, ttl 3600, key prefix `lirax`. -/
def LiraXCore.new : LiraXCoreInstance :=
  { cache := cacheFactoryCreateMemory 3600 "lirax", networkCalls := 0 }

/-- Options of `LiraXCore.executeOperation` (defaults applied by the
destructuring at the top of the method). -/
structure ExecOpOptions where
  idempotencyKey : Option String
  idempotencyTTL : Nat
  useCache : Bool
  cacheKey : Option String
  cacheTTL : Nat

/-- JavaScript truthiness of an optional string. -/
def optStrTruthy (s : Option String) : Bool :=
  match s with
  | some v => decide (v ≠ "")
  | none => false

/-- The `_meta` tag of a read-cache hit. -/
def metaFromCache : JVal := JVal.jobj [("fromCache", JVal.jbool true)]

/-- The `_meta` tag of an idempotency hit. -/
def metaIdem : JVal :=
  JVal.jobj [("fromCache", JVal.jbool true), ("idempotencyHit", JVal.jbool true)]

/-- Set (replace or append) a field of a JSON object field list, as the
spread `{ ...cachedResult, _meta: ... }` does. -/
def objSet (fs : List (String × JVal)) (k : String) (v : JVal) : List (String × JVal) :=
  if fs.any (fun p => p.1 = k) then fs.map (fun p => if p.1 = k then (k, v) else p)
  else fs ++ [(k, v)]

/-- The spread `{ ...cachedResult, _meta: meta }` (for a non-object value the
spread keeps no own enumerable properties and only `_meta` remains). -/
def withMeta (v : JVal) (meta : JVal) : JVal :=
  match v with
  | JVal.jobj fs => JVal.jobj (objSet fs "_meta" meta)
  | _ => JVal.jobj [("_meta", meta)]

/-- Transport-and-store phase of `executeOperation` (core/LiraXCore.ts lines
98-112): perform the network request (`liraxRequest`, counted), then write
the result under the cache key (when read caching is on) and under
`idempotency:{key}` (when an idempotency key is given) — the idempotency
write happens independently of `useCache`. Schema validation of the
parameters (line 98-99) does not affect these claims and is modelled as the
identity on the already-valid parameters. -/
def execOpNetwork (st0 : LiraXCoreInstance) (now : Nat) (opts : ExecOpOptions)
    (netResult : JVal) : JVal × LiraXCoreInstance :=
  let st1 : LiraXCoreInstance := { st0 with networkCalls := st0.networkCalls + 1 }
  let st2 : LiraXCoreInstance :=
    if opts.useCache ∧ optStrTruthy opts.cacheKey then
      { st1 with cache :=
          (st1.cache.set (opts.cacheKey.getD "") netResult (some opts.cacheTTL) now) }
    else st1
  let st3 : LiraXCoreInstance :=
    if optStrTruthy opts.idempotencyKey then
      { st2 with cache :=
          (st2.cache.set ("idempotency:" ++ opts.idempotencyKey.getD "") netResult
            (some opts.idempotencyTTL) now) }
    else st2
  (netResult, st3)

/-- Idempotency-lookup phase of `executeOperation` (lines 91-96): when an
idempotency key is given, a truthy cached value is returned tagged
`fromCache, idempotencyHit`; otherwise fall through to the network phase.
This lookup runs regardless of `useCache`. -/
def execOpAfterCache (st0 : LiraXCoreInstance) (now : Nat) (opts : ExecOpOptions)
    (netResult : JVal) : JVal × LiraXCoreInstance :=
  if optStrTruthy opts.idempotencyKey then
    let g := st0.cache.get ("idempotency:" ++ opts.idempotencyKey.getD "") now
    let st1 : LiraXCoreInstance := { st0 with cache := g.2 }
    match g.1 with
    | some v =>
      if jsTruthy v then (withMeta v metaIdem, st1)
      else execOpNetwork st1 now opts netResult
    | none => execOpNetwork st1 now opts netResult
  else execOpNetwork st0 now opts netResult

/-- Model of `LiraXCore.executeOperation` (core/LiraXCore.ts lines 69-113):
read-cache lookup (when `useCache` and a truthy cache key), then the
idempotency lookup, then the network phase with its cache/idempotency
writes. `netResult` is the response the network would deliver. -/
def executeOperation (st0 : LiraXCoreInstance) (now : Nat) (opts : ExecOpOptions)
    (netResult : JVal) : JVal × LiraXCoreInstance :=
  if opts.useCache ∧ optStrTruthy opts.cacheKey then
    let g := st0.cache.get (opts.cacheKey.getD "") now
    let st1 : LiraXCoreInstance := { st0 with cache := g.2 }
    match g.1 with
    | some v =>
      if jsTruthy v then (withMeta v metaFromCache, st1)
      else execOpAfterCache st1 now opts netResult
    | none => execOpAfterCache st1 now opts netResult
  else execOpAfterCache st0 now opts netResult

/-- The options of the C2 scenario: an idempotency key with the given TTL,
no cache key, `useCache` as given. -/
def idemOpts (uc : Bool) (k : String) (ttl : Nat) : ExecOpOptions :=
  { idempotencyKey := some k, idempotencyTTL := ttl, useCache := uc, cacheKey := none,
    cacheTTL := 3600 }

/-- Run a sequence of `executeOperation` calls (time and would-be network
response per call) on one orchestrator instance, collecting the results. -/
def runLaterCalls (opts : ExecOpOptions) :
    List (Nat × JVal) → LiraXCoreInstance → List JVal × LiraXCoreInstance
  | [], st => ([], st)
  | (t, net) :: rest, st =>
    let r := executeOperation st t opts net
    let tail := runLaterCalls opts rest r.2
    (r.1 :: tail.1, tail.2)

/-- The orchestrator state after a first `executeOperation` call that misses
the idempotency lookup, performs the network request, and stores the result
under `idempotency:{k}` with expiry `exp`. -/
def idemStoredState (k : String) (r : JVal) (exp : Nat) : LiraXCoreInstance where
  cache :=
    { table := fun kk =>
        if kk = "lirax" ++ ":" ++ ("idempotency:" ++ k)
        then some { data := r, expires := exp } else none
      hits := 0
      misses := 1
      defaultTTL := 3600
      keyPrefix := "lirax" }
  networkCalls := 1

/-- One entry of `ThrottlingManager.throttleMap` (shared/LiraX.utils.ts
lines 44-47). `pending` holds the completion time of the in-flight
operation's promise, when one is in flight. -/
structure ThrottleEntry where
  lastRequestTime : Nat
  pending : Option Nat

/-- Execution window of one throttled operation. -/
structure CallTiming where
  opStart : Nat
  opEnd : Nat

/-- Timeline of one `ThrottlingManager.throttle` call (lines 64-102), given
the map entry it snapshots on arrival. The source reads `now` (line 69) and
`entry` (line 70) BEFORE any await: if the snapshot has a pending promise
the call awaits it (resuming at `max arrival end`), then sleeps the
residual delay computed from the STALE `now` and `entry.lastRequestTime`
(lines 77-80), and only then starts the operation and writes the map entry
(lines 83-87, at time `opStart`). -/
def throttleCallTiming (snapshot : Option ThrottleEntry) (arrival delayMs opDuration : Nat) :
    CallTiming :=
  let afterAwait :=
    match snapshot with
    | some e =>
      match e.pending with
      | some endT => max arrival endT
      | none => arrival
    | none => arrival
  let residual :=
    match snapshot with
    | some e =>
      if arrival - e.lastRequestTime < delayMs then delayMs - (arrival - e.lastRequestTime)
      else 0
    | none => 0
  { opStart := afterAwait + residual, opEnd := afterAwait + residual + opDuration }

/-- Two concurrent `throttle` calls on one key, arriving at `a1 ≤ a2` with
the map holding `m0` (no in-flight operation) when the first call reads it.
The first call snapshots `m0`. The first call writes its own entry only at
its `opStart` (line 84 runs after its awaits and sleeps), so the second
call snapshots the STALE `m0` when it arrives before that write, and the
first call's fresh entry otherwise (with `pending` already cleared if the
first operation finished before `a2`). -/
def twoCallTimings (m0 : Option ThrottleEntry) (a1 d1 a2 d2 delayMs : Nat) :
    CallTiming × CallTiming :=
  let t1 := throttleCallTiming m0 a1 delayMs d1
  let snap2 : Option ThrottleEntry :=
    if a2 < t1.opStart then m0
    else some { lastRequestTime := t1.opStart,
                pending := if a2 < t1.opEnd then some t1.opEnd else none }
  (t1, throttleCallTiming snap2 a2 delayMs d2)

/-- The 5000 ms default delay between throttled SMS requests
(`SMS_THROTTLE_DELAY_MS`, shared/LiraX.utils.ts line 39). -/
def SMS_THROTTLE_DELAY_MS : Nat := 5000

/-- Model of `createSMSThrottleKey` (shared/LiraX.utils.ts lines 914-916). -/
def createSMSThrottleKey (provider ext : String) : String :=
  "sms:" ++ provider ++ ":" ++ ext

/-- The throttling decision of `liraxRequest` (shared/LiraX.utils.ts lines
396-404): with a truthy `options.throttleKey` the whole request runs
through `ThrottlingManager.throttle(key, ..)` with the default delay of
`SMS_THROTTLE_DELAY_MS`; otherwise no throttle is involved. Returns the
(key, minimum delay) the request is throttled under, if any. -/
def liraxRequestThrottleUse (throttleKey : Option String) : Option (String × Nat) :=
  match throttleKey with
  | some tk => if tk ≠ "" then some (tk, SMS_THROTTLE_DELAY_MS) else none
  | none => none

/-- Throttle use of the `throttledSMSRequest` exported by
shared/LiraX.utils.ts (lines 919-932): it calls `liraxRequest` with
`options.throttleKey := createSMSThrottleKey(provider, ext)`. -/
def utilsThrottledSMSThrottleUse (provider ext : String) : Option (String × Nat) :=
  liraxRequestThrottleUse (some (createSMSThrottleKey provider ext))

/-- Throttle use of the FILE-LOCAL `throttledSMSRequest` of the LiraX node
file (the `const throttledSMSRequest` defined at the bottom of the node
file, which shadows the shared utility: the node imports only
`liraxRequest` from shared/LiraX.utils). Despite its name, its comment and
its `provider`/`ext` parameters, it forwards `options` to `liraxRequest`
unchanged — the node's `RequestOptions` has no `throttleKey` field, so no
throttle key is ever set. -/
def nodeLocalThrottledSMSThrottleUse (provider ext : String) : Option (String × Nat) :=
  liraxRequestThrottleUse none

/-- Throttle use of `executeMessagingOperation` of the LiraX node for a
given operation: `sendSMS` and `checkSMS` route through the file-local
`throttledSMSRequest`; the other messaging operations call `liraxRequest`
with no throttle key. -/
def executeMessagingThrottleUse (operation provider ext : String) : Option (String × Nat) :=
  if operation = "sendSMS" then nodeLocalThrottledSMSThrottleUse provider ext
  else if operation = "checkSMS" then nodeLocalThrottledSMSThrottleUse provider ext
  else liraxRequestThrottleUse none

/-- CLAIM C10. For every input, `normalizePhoneDigits` returns a string made
only of decimal digits (the empty string for the empty input), and it is
idempotent: applying it twice equals applying it once. -/
theorem normalizePhoneDigits_digits_and_idempotent :
    ∀ s : String,
      ((normalizePhoneDigits s).data.all Char.isDigit) = true ∧
      normalizePhoneDigits (normalizePhoneDigits s) = normalizePhoneDigits s := by
  intro s
  constructor
  · unfold normalizePhoneDigits
    by_cases h : s = ""
    · simp [h]
    · simp only [h, if_false]
      simp [List.all_eq_true, List.mem_filter]
  · unfold normalizePhoneDigits
    by_cases h : s = ""
    · simp [h]
    · simp only [h, if_false]
      by_cases h2 : String.mk (s.data.filter Char.isDigit) = ""
      · simp [h2]
      · simp only [h2, if_false]
        congr 1
        simp [List.filter_filter]

/-- CLAIM C1. On a fresh default breaker (threshold 5, reset 60000 ms,
probe budget 3): after 5 consecutive failed execute calls the breaker is
OPEN with lastFailureTime set by the fifth failure; while no more than
60000 ms have passed since that failure the next call is rejected with the
circuit-open error without invoking the operation; once more than 60000 ms
have passed the next call is let through in HALF_OPEN state; three
consecutive successful half-open calls return the breaker to CLOSED; a
single half-open failure returns it to OPEN with a new lastFailureTime. -/
theorem circuitBreaker_lifecycle (t1 t2 t3 t4 t5 t6 t7 t8 t9 t10 : Nat) :
    ((cbAfter5Failures t1 t2 t3 t4 t5).state = BreakerState.OPEN ∧
      (cbAfter5Failures t1 t2 t3 t4 t5).lastFailureTime = t5) ∧
    (t6 - t5 ≤ 60000 → ∀ b : Bool,
      ((cbAfter5Failures t1 t2 t3 t4 t5).execute t6 b).result = ExecResult.rejectedOpen ∧
      ((cbAfter5Failures t1 t2 t3 t4 t5).execute t6 b).invoked = false) ∧
    (60000 < t7 - t5 → ∀ b : Bool,
      ((cbAfter5Failures t1 t2 t3 t4 t5).execute t7 b).invoked = true ∧
      ((cbAfter5Failures t1 t2 t3 t4 t5).execute t7 b).stateDuringCall
        = BreakerState.HALF_OPEN) ∧
    (60000 < t7 - t5 →
      (execAfter (execAfter (execAfter (cbAfter5Failures t1 t2 t3 t4 t5) t7 true)
          t8 true) t9 true).state = BreakerState.CLOSED) ∧
    (60000 < t10 - t5 →
      (execAfter (cbAfter5Failures t1 t2 t3 t4 t5) t10 false).state = BreakerState.OPEN ∧
      (execAfter (cbAfter5Failures t1 t2 t3 t4 t5) t10 false).lastFailureTime = t10) := by
  have h1 : execAfter CircuitBreaker.fresh t1 false =
      { state := BreakerState.CLOSED, failures := 1, lastFailureTime := 0,
        failureThreshold := 5, resetTimeout := 60000, halfOpenMaxAttempts := 3,
        halfOpenAttempts := 1, successCount := 0 } := rfl
  have h2 : execAfter
      { state := BreakerState.CLOSED, failures := 1, lastFailureTime := 0,
        failureThreshold := 5, resetTimeout := 60000, halfOpenMaxAttempts := 3,
        halfOpenAttempts := 1, successCount := 0 } t2 false =
      { state := BreakerState.CLOSED, failures := 2, lastFailureTime := 0,
        failureThreshold := 5, resetTimeout := 60000, halfOpenMaxAttempts := 3,
        halfOpenAttempts := 2, successCount := 0 } := rfl
  have h3 : execAfter
      { state := BreakerState.CLOSED, failures := 2, lastFailureTime := 0,
        failureThreshold := 5, resetTimeout := 60000, halfOpenMaxAttempts := 3,
        halfOpenAttempts := 2, successCount := 0 } t3 false =
      { state := BreakerState.CLOSED, failures := 3, lastFailureTime := 0,
        failureThreshold := 5, resetTimeout := 60000, halfOpenMaxAttempts := 3,
        halfOpenAttempts := 3, successCount := 0 } := rfl
  have h4 : execAfter
      { state := BreakerState.CLOSED, failures := 3, lastFailureTime := 0,
        failureThreshold := 5, resetTimeout := 60000, halfOpenMaxAttempts := 3,
        halfOpenAttempts := 3, successCount := 0 } t4 false =
      { state := BreakerState.CLOSED, failures := 4, lastFailureTime := 0,
        failureThreshold := 5, resetTimeout := 60000, halfOpenMaxAttempts := 3,
        halfOpenAttempts := 4, successCount := 0 } := rfl
  have h5 : execAfter
      { state := BreakerState.CLOSED, failures := 4, lastFailureTime := 0,
        failureThreshold := 5, resetTimeout := 60000, halfOpenMaxAttempts := 3,
        halfOpenAttempts := 4, successCount := 0 } t5 false =
      { state := BreakerState.OPEN, failures := 5, lastFailureTime := t5,
        failureThreshold := 5, resetTimeout := 60000, halfOpenMaxAttempts := 3,
        halfOpenAttempts := 5, successCount := 0 } := rfl
  have hcb5 : cbAfter5Failures t1 t2 t3 t4 t5 =
      { state := BreakerState.OPEN, failures := 5, lastFailureTime := t5,
        failureThreshold := 5, resetTimeout := 60000, halfOpenMaxAttempts := 3,
        halfOpenAttempts := 5, successCount := 0 } := by
    show failTimes CircuitBreaker.fresh [t1, t2, t3, t4, t5] = _
    simp only [failTimes, List.foldl]
    rw [h1, h2, h3, h4, h5]
  refine ⟨⟨by rw [hcb5], by rw [hcb5]⟩, ?_, ?_, ?_, ?_⟩
  · intro h6 b
    rw [hcb5]
    simp [CircuitBreaker.execute, Nat.not_lt, h6]
  · intro h7 b
    rw [hcb5]
    cases b <;> simp [CircuitBreaker.execute, h7]
  · intro h7
    rw [hcb5]
    simp [execAfter, CircuitBreaker.execute, CircuitBreaker.onSuccess, h7]
  · intro h10
    rw [hcb5]
    simp [execAfter, CircuitBreaker.execute, CircuitBreaker.onFailure, h10]

/-- Witness for C1 at concrete times 1..5 (failures), 6 (rejected), 70000
(half-open probe), 70001/70002 (successes), 80000 (half-open failure). -/
theorem circuitBreaker_lifecycle_witness :
    (cbAfter5Failures 1 2 3 4 5).state = BreakerState.OPEN ∧
    ((cbAfter5Failures 1 2 3 4 5).execute 6 true).result = ExecResult.rejectedOpen ∧
    ((cbAfter5Failures 1 2 3 4 5).execute 70000 true).stateDuringCall
      = BreakerState.HALF_OPEN ∧
    (execAfter (execAfter (execAfter (cbAfter5Failures 1 2 3 4 5) 70000 true)
        70001 true) 70002 true).state = BreakerState.CLOSED ∧
    (execAfter (cbAfter5Failures 1 2 3 4 5) 80000 false).lastFailureTime = 80000 := by
  have h := circuitBreaker_lifecycle 1 2 3 4 5 6 70000 70001 70002 80000
  exact ⟨h.1.1, (h.2.1 (by decide) true).1, (h.2.2.1 (by decide) true).2,
    h.2.2.2.1 (by decide), (h.2.2.2.2 (by decide)).2⟩

/-- Helper: a guarded request under one key never touches the factory's
entry for a different key. -/
theorem breakerCallUnder_frame (m : String → Option CircuitBreaker)
    (k1 : Option String) (key2 : String) (now : Nat) (b : Bool)
    (hne : breakerKeyOf k1 ≠ key2) :
    (breakerCallUnder m k1 now b).2 key2 = m key2 := by
  unfold breakerCallUnder getBreakerEntry
  cases hm : m (breakerKeyOf k1) <;>
    simp [hm, Ne.symm hne]

/-- CLAIM C4 (amended). Breaker isolation holds exactly up to the computed
breaker key `credentials.id || 'default'`: a request under one credential
leaves the factory entry of any different key unchanged; but the
`LiraXCredentials` interface has no `id` field, so interface-conforming
credential records all map to the one shared `'default'` key. -/
theorem breaker_isolation_by_key :
    (∀ (m : String → Option CircuitBreaker) (k1 k2 : Option String) (now : Nat) (b : Bool),
      breakerKeyOf k1 ≠ breakerKeyOf k2 →
        (breakerCallUnder m k1 now b).2 (breakerKeyOf k2) = m (breakerKeyOf k2)) ∧
    (∀ c1 c2 : LiraXCredentials, c1.id = none → c2.id = none →
      breakerKeyOf c1.id = breakerKeyOf c2.id) := by
  constructor
  · intro m k1 k2 now b hne
    exact breakerCallUnder_frame m k1 (breakerKeyOf k2) now b hne
  · intro c1 c2 h1 h2
    rw [h1, h2]

/-- Witness for C4 at concrete inputs: distinct runtime ids are isolated,
and the two concrete interface-conforming credential records share a key. -/
theorem breaker_isolation_by_key_witness :
    (breakerCallUnder emptyBreakers (some "tenantA") 0 false).2
        (breakerKeyOf (some "tenantB"))
      = emptyBreakers (breakerKeyOf (some "tenantB")) ∧
    breakerKeyOf credA.id = breakerKeyOf credB.id := by
  have h := breaker_isolation_by_key
  exact ⟨h.1 emptyBreakers (some "tenantA") (some "tenantB") 0 false (by decide),
    h.2 credA credB rfl rfl⟩

/-- Counterexample to C4 as stated: the two distinct credential records
`credA` and `credB` (no runtime id, as their interface admits) share the
`'default'` breaker, so five failures under `credA` make the very breaker
fetched for `credB` reject the next call. -/
theorem breaker_shared_default_counterexample :
    credA ≠ credB ∧
    breakerKeyOf credA.id = breakerKeyOf credB.id ∧
    ((breakerCallUnder (breakerFailuresUnder emptyBreakers credA.id [1, 2, 3, 4, 5])
        credB.id 6 true).1.result = ExecResult.rejectedOpen) := by
  refine ⟨by decide, rfl, by decide⟩

/-- Helper: on an endpoint whose every attempt fails with the retryable
HTTP 500 error, the retry loop runs its full budget, collecting one error
per attempt and sleeping between consecutive attempts. -/
theorem runEndpoint_allFail500 (n : Nat) :
    ∀ att : Nat,
      runEndpoint oracleABFail500 0 att (n + 1) =
        { success := none, errors := List.replicate (n + 1) err500,
          attempts := (List.range (n + 1)).map (fun i => (0, att + i)), sleeps := n } := by
  induction n with
  | zero =>
    intro att
    rfl
  | succ k ih =>
    intro att
    have hstep : attemptResult oracleABFail500 0 att = Except.error err500 := rfl
    have hretry : isRetryableError (some err500) = true := rfl
    have hfun : ((fun i => ((0 : Nat), att + i)) ∘ Nat.succ) =
        (fun i => ((0 : Nat), att + 1 + i)) := by
      funext i
      show ((0 : Nat), att + Nat.succ i) = ((0 : Nat), att + 1 + i)
      rw [Prod.mk.injEq]
      exact ⟨rfl, by omega⟩
    have hatt : (List.range (k + 1 + 1)).map (fun i => ((0 : Nat), att + i)) =
        ((0 : Nat), att) :: (List.range (k + 1)).map (fun i => ((0 : Nat), att + 1 + i)) := by
      conv_lhs => rw [List.range_succ_eq_map]
      rw [List.map_cons, List.map_map, hfun]
      simp
    rw [runEndpoint, hstep]
    simp [hretry, ih (att + 1), hatt, List.replicate_succ]

/-- Helper: the per-endpoint attempt budget for a positive configured retry
count is exactly that count plus one. -/
theorem maxAttemptsOf_pos (r : Int) (h : 1 ≤ r) : maxAttemptsOf r = r.toNat + 1 := by
  unfold maxAttemptsOf
  rw [if_neg (by omega), max_eq_right (by omega : (0 : Int) ≤ r)]

/-- CLAIM C3 (amended). With endpoints [A, B], A always failing with the
retryable HTTP 500 and B succeeding: for every configured retry count
maxRetries ≥ 1 the request is attempted exactly maxRetries + 1 times
against A, then once against B, and resolves with B's response; when the
configured retry count is 0 the falsy value is replaced by the default 3,
so A is attempted 4 times (not 1) before B. -/
theorem failover_retries_then_secondary (r : Int) (hr : 1 ≤ r) :
    (executeRequestWithRetry (credsAB r) oracleABFail500).result = ReqResult.ok respOkB ∧
    (executeRequestWithRetry (credsAB r) oracleABFail500).attempts
      = (List.range (r.toNat + 1)).map (fun i => ((0 : Nat), i)) ++ [(1, 0)] ∧
    (executeRequestWithRetry (credsAB 0) oracleABFail500).attempts
      = (List.range 4).map (fun i => ((0 : Nat), i)) ++ [(1, 0)] := by
  have hurls : (credentialUrls (credsAB r)).filter isValidBaseUrl
      = ["https://a.lirax.example", "https://b.lirax.example"] := rfl
  have hA := runEndpoint_allFail500 r.toNat 0
  have hB : runEndpoint oracleABFail500 1 0 (r.toNat + 1) =
      { success := some respOkB, errors := [], attempts := [(1, 0)], sleeps := 0 } := by
    rw [runEndpoint]
    rfl
  have hrun : executeRequestWithRetry (credsAB r) oracleABFail500 =
      runEndpoints oracleABFail500 (maxAttemptsOf r) 0
        ["https://a.lirax.example", "https://b.lirax.example"] := by
    unfold executeRequestWithRetry
    rw [hurls]
    rfl
  rw [hrun, maxAttemptsOf_pos r hr]
  have hfold : runEndpoints oracleABFail500 (r.toNat + 1) 0
      ["https://a.lirax.example", "https://b.lirax.example"] =
      { result := ReqResult.ok respOkB,
        attempts := (List.range (r.toNat + 1)).map (fun i => ((0 : Nat), 0 + i)) ++ [(1, 0)],
        sleeps := r.toNat + 0 } := by
    rw [runEndpoints, hA]
    rw [runEndpoints, hB]
  rw [hfold]
  refine ⟨rfl, by simp, by rfl⟩

/-- Witness for C3 at the concrete retry count 2: three attempts against A,
then B's response. -/
theorem failover_retries_then_secondary_witness :
    (executeRequestWithRetry (credsAB 2) oracleABFail500).result = ReqResult.ok respOkB ∧
    (executeRequestWithRetry (credsAB 2) oracleABFail500).attempts
      = (List.range ((2 : Int).toNat + 1)).map (fun i => ((0 : Nat), i)) ++ [(1, 0)] := by
  have h := failover_retries_then_secondary 2 (by decide)
  exact ⟨h.1, h.2.1⟩

/-- Counterexample to C3 as stated: with the configured retry count 0 the
code attempts A four times, not 0 + 1 = 1 times, because
`credentials.retries || DEFAULT_RETRY_ATTEMPTS` treats 0 as falsy. -/
theorem failover_zero_retries_counterexample :
    ((executeRequestWithRetry (credsAB 0) oracleABFail500).attempts.countP
      (fun p => decide (p.1 = 0))) = 4 ∧ ¬ (4 = (0 : Int).toNat + 1) := by
  constructor
  · rfl
  · decide

/-- CLAIM C6 (amended). With a single configured endpoint answering HTTP 400
(non-retryable), exactly one attempt is made, no backoff sleep runs, and
the call fails at once with the aggregated failover error that carries the
single 400 attempt error. -/
theorem failover400_single_attempt :
    (executeRequestWithRetry credsSingle oracleSingle400).result
      = ReqResult.failoverError [err400] ∧
    (executeRequestWithRetry credsSingle oracleSingle400).attempts = [(0, 0)] ∧
    (executeRequestWithRetry credsSingle oracleSingle400).sleeps = 0 ∧
    isRetryableError (some err400) = false := by
  exact ⟨rfl, rfl, rfl, rfl⟩

/-- Counterexample to C6 as stated: the error surfaced by the single-endpoint
HTTP 400 run is the aggregated failover error, whose message is the
`All failover attempts failed ...` line of `handleFailoverError`, not the
validation-type message the handler produces for HTTP 400 — it contains
neither `Invalid parameters` nor `Validation failed`. -/
theorem failover400_not_validation_counterexample :
    (executeRequestWithRetry credsSingle oracleSingle400).result
      = ReqResult.failoverError [err400] ∧
    failoverSurfacedMessage "makeCall" ≠
      generateUserFriendlyMessage
        { code := none, httpCode := some 400, responseStatus := none, responseBody := none,
          responseDataError := none, zodErrors := [], message := "Bad Request" }
        "makeCall" (some 400) ∧
    strContainsB (failoverSurfacedMessage "makeCall") "Invalid parameters" = false ∧
    strContainsB (failoverSurfacedMessage "makeCall") "Validation failed" = false := by
  refine ⟨rfl, by decide, by decide, by decide⟩

/-- Helper: looking a key up after filtering out exactly that key finds
nothing. -/
theorem lookup_filter_ne (p : List (String × String)) (k : String) :
    (p.filter (fun kv => kv.1 ≠ k)).lookup k = none := by
  induction p with
  | nil => rfl
  | cons a t ih =>
    obtain ⟨a1, a2⟩ := a
    by_cases h : a1 = k
    · rw [List.filter_cons, if_neg (by simp [h])]
      exact ih
    · rw [List.filter_cons, if_pos (by simp [h])]
      have hne : (k == a1) = false := by
        simp only [beq_eq_false_iff_ne]
        exact Ne.symm h
      simp only [List.lookup, hne]
      exact ih

/-- CLAIM C7 (amended). The error handler removes a truthy `token` from the
embedded payload; every field of its sensitive list (token, phone, ani,
dnis, to, to1, to2, provider, ext, newext, client, from_LiraX_token) with a
truthy value is masked to stars plus last-4 before inclusion; and in the
concrete scenario with payload token=abc123xyz, phone=380501234567 neither
the literal token nor the full phone digits appear anywhere in the surfaced
message or description. (Fields outside that list — emails, IPs — are not
masked.) -/
theorem errorHandler_masks_payload :
    (∀ (p : List (String × String)) (v : String),
        p.lookup "token" = some v → v ≠ "" →
        (deleteTokenField p).lookup "token" = none) ∧
    (∀ (q : List (String × String)) (k v : String),
        (k, v) ∈ q → k ∈ sensitiveFieldsEH → v ≠ "" →
        (k, maskValue v) ∈ maskSensitiveDataEH q) ∧
    strContainsB (handleMessage genericErr "makeCall") "abc123xyz" = false ∧
    strContainsB (handleMessage genericErr "makeCall") "380501234567" = false ∧
    strContainsB (handleDescription genericErr "makeCall" none payloadTokenPhone tsSample)
      "abc123xyz" = false ∧
    strContainsB (handleDescription genericErr "makeCall" none payloadTokenPhone tsSample)
      "380501234567" = false := by
  refine ⟨?_, ?_, by decide, by decide, by decide, by decide⟩
  · intro p v hl hv
    unfold deleteTokenField
    rw [hl]
    show (if v ≠ "" then p.filter (fun kv => kv.1 ≠ "token") else p).lookup "token" = none
    rw [if_pos hv]
    exact lookup_filter_ne p "token"
  · intro q k v hm hk hv
    have hf : (fun kv : String × String =>
        if kv.1 ∈ sensitiveFieldsEH ∧ kv.2 ≠ "" then (kv.1, maskValue kv.2) else kv) (k, v)
        = (k, maskValue v) := by
      simp [hk, hv]
    exact hf ▸ List.mem_map_of_mem _ hm

/-- Witness for C7 at the concrete payload of the scenario. -/
theorem errorHandler_masks_payload_witness :
    (deleteTokenField payloadTokenPhone).lookup "token" = none ∧
    ("phone", maskValue "380501234567") ∈ maskSensitiveDataEH payloadTokenPhone ∧
    strContainsB (handleMessage genericErr "makeCall") "abc123xyz" = false := by
  have h := errorHandler_masks_payload
  exact ⟨h.1 payloadTokenPhone "abc123xyz" (by decide) (by decide),
    h.2.1 payloadTokenPhone "phone" "380501234567" (by decide) (by decide) (by decide),
    h.2.2.1⟩

/-- Counterexample to C7 as stated: an `email` field is not in the handler's
sensitive-field list and survives unmasked — the full literal email address
appears in the surfaced error description. -/
theorem errorHandler_email_unmasked_counterexample :
    strContainsB
      (handleDescription genericErr "createTask" none
        [("email", "john.doe@example.com")] tsSample)
      "john.doe@example.com" = true ∧
    ¬ ("email" ∈ sensitiveFieldsEH) := by
  exact ⟨by decide, by decide⟩

/-- Helper: an `executeOperation` call that finds an unexpired truthy value
under its idempotency key returns that value tagged as an idempotency hit
and only bumps the provider's hit counter. -/
theorem executeOperation_idem_hit (uc : Bool) (k : String) (exp t ttl : Nat) (r net : JVal)
    (st : LiraXCoreInstance)
    (hk : k ≠ "") (hr : jsTruthy r = true)
    (htab : st.cache.table (st.cache.keyPrefix ++ ":" ++ ("idempotency:" ++ k))
      = some { data := r, expires := exp })
    (ht : t ≤ exp) :
    executeOperation st t (idemOpts uc k ttl) net
      = (withMeta r metaIdem,
         { st with cache := { st.cache with hits := st.cache.hits + 1 } }) := by
  have hnotlt : ¬ (exp < t) := not_lt.mpr ht
  cases uc <;>
    simp [executeOperation, execOpAfterCache, idemOpts, optStrTruthy, MemCache.get,
      hk, htab, hnotlt, hr]

/-- Helper: every call of a sequence that runs against a state holding an
unexpired idempotency entry returns the stored result tagged as an
idempotency hit, and performs no network request. -/
theorem runLaterCalls_idem_hits (uc : Bool) (k : String) (ttl exp : Nat) (r : JVal)
    (hk : k ≠ "") (hr : jsTruthy r = true) :
    ∀ (calls : List (Nat × JVal)) (st : LiraXCoreInstance),
      st.cache.table (st.cache.keyPrefix ++ ":" ++ ("idempotency:" ++ k))
        = some { data := r, expires := exp } →
      (∀ c ∈ calls, c.1 ≤ exp) →
      (runLaterCalls (idemOpts uc k ttl) calls st).1
        = calls.map (fun _ => withMeta r metaIdem) ∧
      (runLaterCalls (idemOpts uc k ttl) calls st).2.networkCalls = st.networkCalls := by
  intro calls
  induction calls with
  | nil =>
    intro st _ _
    exact ⟨rfl, rfl⟩
  | cons c rest ih =>
    intro st htab hin
    obtain ⟨t, net⟩ := c
    have hstep := executeOperation_idem_hit uc k exp t ttl r net st hk hr htab
      (hin (t, net) (by simp))
    have htail := ih { st with cache := { st.cache with hits := st.cache.hits + 1 } }
      htab (fun c hc => hin c (List.mem_cons_of_mem _ hc))
    simp only [runLaterCalls, hstep, List.map_cons]
    exact ⟨by rw [htail.1], by rw [htail.2]⟩

/-- CLAIM C2. On one orchestrator instance, for any sequence of
`executeOperation` calls sharing one idempotency key within its TTL
(and regardless of `useCache`): the first call performs exactly one network
request and returns the network result; every later call performs no
network request and returns the first call's stored result tagged
`_meta.fromCache = true, _meta.idempotencyHit = true`. -/
theorem executeOperation_idempotent_dedup (uc : Bool) (k : String) (ttl t1 : Nat)
    (r : JVal) (calls : List (Nat × JVal))
    (hk : k ≠ "") (httl : 0 < ttl) (hr : jsTruthy r = true)
    (hin : ∀ c ∈ calls, c.1 ≤ t1 + ttl * 1000) :
    (executeOperation LiraXCore.new t1 (idemOpts uc k ttl) r).1 = r ∧
    (executeOperation LiraXCore.new t1 (idemOpts uc k ttl) r).2.networkCalls = 1 ∧
    (runLaterCalls (idemOpts uc k ttl) calls
        (executeOperation LiraXCore.new t1 (idemOpts uc k ttl) r).2).1
      = calls.map (fun _ => withMeta r metaIdem) ∧
    (runLaterCalls (idemOpts uc k ttl) calls
        (executeOperation LiraXCore.new t1 (idemOpts uc k ttl) r).2).2.networkCalls = 1 := by
  have h1 : executeOperation LiraXCore.new t1 (idemOpts uc k ttl) r
      = (r, idemStoredState k r (t1 + ttl * 1000)) := by
    cases uc <;>
      simp [executeOperation, execOpAfterCache, execOpNetwork, idemOpts, optStrTruthy,
        LiraXCore.new, cacheFactoryCreateMemory, MemoryCacheProvider.new, MemCache.get,
        MemCache.set, idemStoredState, hk, httl]
  have hC : (executeOperation LiraXCore.new t1 (idemOpts uc k ttl) r).2.cache.table
      ((executeOperation LiraXCore.new t1 (idemOpts uc k ttl) r).2.cache.keyPrefix
        ++ ":" ++ ("idempotency:" ++ k))
      = some { data := r, expires := t1 + ttl * 1000 } := by
    rw [h1]
    simp [idemStoredState]
  have hmain := runLaterCalls_idem_hits uc k ttl (t1 + ttl * 1000) r hk hr calls
    (executeOperation LiraXCore.new t1 (idemOpts uc k ttl) r).2 hC hin
  refine ⟨by rw [h1], by simp [h1, idemStoredState], hmain.1, ?_⟩
  rw [hmain.2]
  simp [h1, idemStoredState]

/-- Witness for C2 at a concrete scenario: key `k1`, TTL 86400 s, first call
at t = 1000 returning an object, two later calls within the TTL. -/
theorem executeOperation_idempotent_dedup_witness :
    (executeOperation LiraXCore.new 1000
        (idemOpts false "k1" 86400) (JVal.jobj [("ok", JVal.jbool true)])).2.networkCalls
      = 1 ∧
    (runLaterCalls (idemOpts false "k1" 86400)
        [(2000, JVal.jobj [("other", JVal.jbool true)]),
         (500000, JVal.jobj [("other2", JVal.jbool true)])]
        (executeOperation LiraXCore.new 1000
          (idemOpts false "k1" 86400) (JVal.jobj [("ok", JVal.jbool true)])).2).1
      = [withMeta (JVal.jobj [("ok", JVal.jbool true)]) metaIdem,
         withMeta (JVal.jobj [("ok", JVal.jbool true)]) metaIdem] ∧
    (runLaterCalls (idemOpts false "k1" 86400)
        [(2000, JVal.jobj [("other", JVal.jbool true)]),
         (500000, JVal.jobj [("other2", JVal.jbool true)])]
        (executeOperation LiraXCore.new 1000
          (idemOpts false "k1" 86400) (JVal.jobj [("ok", JVal.jbool true)])).2).2.networkCalls
      = 1 := by
  have h := executeOperation_idempotent_dedup false "k1" 86400 1000
    (JVal.jobj [("ok", JVal.jbool true)])
    [(2000, JVal.jobj [("other", JVal.jbool true)]),
     (500000, JVal.jobj [("other2", JVal.jbool true)])]
    (by decide) (by decide) (by decide) (by decide)
  exact ⟨h.2.1, h.2.2.1, h.2.2.2⟩

/-- CLAIM C9 (amended). With the default in-memory provider the cache store
is per-orchestrator-instance state: each `new LiraXCore` builds its own
`MemoryCacheProvider` via `CacheFactory.create`, so a value stored through
one instance is readable (while unexpired) through that same instance's
provider, while the provider of any other (fresh) instance does not observe
it. -/
theorem memoryCache_per_instance (key : String) (v : JVal) (ttl t t' : Nat)
    (httl : 0 < ttl) (hexp : t' ≤ t + ttl * 1000) :
    ((LiraXCore.new.cache.set key v (some ttl) t).get key t').1 = some v ∧
    (LiraXCore.new.cache.get key t').1 = none := by
  constructor
  · have hnot : ¬ (t + ttl * 1000 < t') := not_lt.mpr hexp
    simp [LiraXCore.new, cacheFactoryCreateMemory, MemoryCacheProvider.new, MemCache.get,
      MemCache.set, httl, hnot]
  · rfl

/-- Witness for C9 at a concrete key, value and clock. -/
theorem memoryCache_per_instance_witness :
    ((LiraXCore.new.cache.set "users:all" (JVal.jobj [("users", JVal.jstr "u1")])
        (some 3600) 1000).get "users:all" 2000).1
      = some (JVal.jobj [("users", JVal.jstr "u1")]) ∧
    (LiraXCore.new.cache.get "users:all" 2000).1 = none := by
  exact memoryCache_per_instance "users:all" (JVal.jobj [("users", JVal.jstr "u1")])
    3600 1000 2000 (by decide) (by decide)

/-- Counterexample to C9 as stated: a value stored under `users:all` through
one orchestrator instance is NOT observable through a second instance in
the same process — the second instance's `CacheFactory.create` call built a
separate `MemoryCacheProvider` with its own private map, and its get
returns `none` while the claim requires the stored value. -/
theorem memoryCache_not_shared_counterexample :
    (LiraXCore.new.cache.get "users:all" 2000).1 = none ∧
    ((LiraXCore.new.cache.set "users:all" (JVal.jobj [("users", JVal.jstr "u1")])
        (some 3600) 1000).get "users:all" 2000).1
      = some (JVal.jobj [("users", JVal.jstr "u1")]) := by
  exact ⟨rfl, rfl⟩

/-- CLAIM C8. When the second call observes the first call's map write
(fresh key: no prior entry), two concurrent throttle calls are serialized
with the claimed minimum spacing. But the code reads `now` and the map
entry before awaiting: evaluated at the failing input — an idle entry
(lastRequestTime 0, no pending operation) and two concurrent calls arriving
at 100 and 200 with delay 5000 — both calls compute their residual sleep
from the same stale entry and BOTH start at 5000: overlapping execution
windows and zero spacing, contradicting the claimed invariant (a code bug:
the comment at lines 73/82 and the spec intend serialization). -/
theorem throttle_race_code_bug :
    (∀ a1 d1 a2 d2 delay : Nat, a1 ≤ a2 →
      a1 + delay ≤ (twoCallTimings none a1 d1 a2 d2 delay).2.opStart ∧
      (twoCallTimings none a1 d1 a2 d2 delay).1.opEnd
        ≤ (twoCallTimings none a1 d1 a2 d2 delay).2.opStart) ∧
    ((twoCallTimings (some { lastRequestTime := 0, pending := none })
        100 400 200 400 5000).1.opStart = 5000 ∧
     (twoCallTimings (some { lastRequestTime := 0, pending := none })
        100 400 200 400 5000).2.opStart = 5000 ∧
     (twoCallTimings (some { lastRequestTime := 0, pending := none })
        100 400 200 400 5000).2.opStart
       < (twoCallTimings (some { lastRequestTime := 0, pending := none })
        100 400 200 400 5000).1.opEnd ∧
     ¬ ((twoCallTimings (some { lastRequestTime := 0, pending := none })
        100 400 200 400 5000).1.opStart + 5000
          ≤ (twoCallTimings (some { lastRequestTime := 0, pending := none })
        100 400 200 400 5000).2.opStart)) := by
  constructor
  · intro a1 d1 a2 d2 delay h12
    simp only [twoCallTimings, throttleCallTiming, Nat.add_zero]
    have hno : ¬ (a2 < a1) := by omega
    simp only [if_neg hno]
    by_cases hp : a2 < a1 + d1
    · simp only [if_pos hp]
      rw [Nat.max_eq_right (Nat.le_of_lt hp)]
      by_cases hq : a2 - a1 < delay
      · simp only [if_pos hq]
        exact ⟨by omega, by omega⟩
      · simp only [if_neg hq]
        exact ⟨by omega, by omega⟩
    · simp only [if_neg hp]
      by_cases hq : a2 - a1 < delay
      · simp only [if_pos hq]
        exact ⟨by omega, by omega⟩
      · simp only [if_neg hq]
        exact ⟨by omega, by omega⟩
  · exact ⟨rfl, rfl, by decide, by decide⟩

/-- Witness for C8 at concrete inputs of the serialized (fresh-key) clause:
two calls at 0 and 1 with duration 10 and delay 5000. -/
theorem throttle_race_code_bug_witness :
    0 + 5000 ≤ (twoCallTimings none 0 10 1 10 5000).2.opStart ∧
    (twoCallTimings none 0 10 1 10 5000).1.opEnd
      ≤ (twoCallTimings none 0 10 1 10 5000).2.opStart := by
  exact (throttle_race_code_bug.1 0 10 1 10 5000 (by decide))

/-- CLAIM C5. The node's `executeMessagingOperation` routes `sendSMS` and
`checkSMS` through the FILE-LOCAL `throttledSMSRequest`, which sets no
throttle key, so neither operation is throttled at all — while the
`throttledSMSRequest` exported by shared/LiraX.utils.ts would throttle them
under the key `sms:{provider}:{ext}` with the 5000 ms minimum spacing the
claim requires (a code bug: the local helper's own comment announces
SMS throttling). -/
theorem sms_not_throttled_in_node (p e : String) :
    executeMessagingThrottleUse "sendSMS" p e = none ∧
    executeMessagingThrottleUse "checkSMS" p e = none ∧
    utilsThrottledSMSThrottleUse p e
      = some ("sms:" ++ p ++ ":" ++ e, SMS_THROTTLE_DELAY_MS) := by
  have hne : ("sms:" ++ p ++ ":" ++ e) ≠ "" := by
    intro h
    have hlen := congrArg String.length h
    simp [String.length_append] at hlen
    exact absurd hlen.1.1.1 (by decide)
  refine ⟨rfl, rfl, ?_⟩
  simp [utilsThrottledSMSThrottleUse, liraxRequestThrottleUse, createSMSThrottleKey, hne]
